import Mathlib

/-!
Shallow embedding of the Alpine3D simulation-step coordinator
(`alpine3d/SnowpackInterface.cc`): the step readiness state machine
(`calcNextStep`), the producer push setters (`setMeteo`,
`setRadiationComponents`, `setSnowMassChange`, `assimilate`), the grid
query and aggregation path (`getGrid`), the special-point registration
(`prepare_pts` / `pair_comparator`) and the special-point output path
(`write_special_points`).

External collaborators (the per-cell snow model, the MPI coordination
primitive, the mio grid library, the file writers) are out of the spec's
scope; where their behaviour is observable from the coordinator it is
modelled at the interface boundary and documented on the definition.
Scalar grid values are modelled as integers: every property proved here
only copies, splices or compares values, never computes with them.
-/

set_option linter.unusedVariables false

/-- Scalar grid cell values (opaque bit patterns in the claims proved here). -/
abbrev Val := Int

/-- Model of mio::Grid2DObject: a 2D array tagged with geolocation metadata
(lower-left corner easting/northing and cellsize) and row-major cell data
(`data` is a list of `ny` rows, each a list of `nx` cells). -/
structure Grid2D where
  nx : Nat
  ny : Nat
  east : Int
  north : Int
  cellsize : Int
  data : List (List Val)
deriving DecidableEq, Repr

/-- Cell access with an out-of-range default of 0, used to state per-cell
properties of spliced grids. -/
def Grid2D.get (g : Grid2D) (x y : Nat) : Val :=
  (g.data.getD y []).getD x 0

/-- Modelled from the spec: mio's Grid2DObject::isSameGeolocalization
(meteoio is an external collaborator; spec section 3: any two grids combined
must have "identical geolocation and dimensions; violation is a hard error").
True iff dimensions and geolocation match. -/
def isSameGeolocalization (a b : Grid2D) : Bool :=
  a.nx == b.nx && a.ny == b.ny && a.east == b.east && a.north == b.north &&
    a.cellsize == b.cellsize

/-- The zero-filled grid with the geometry of `dem`:
`mio::Grid2DObject o_grid2D(dem, 0.)` at the start of getGrid's gather path. -/
def Grid2D.zeroLike (dem : Grid2D) : Grid2D :=
  { dem with data := dem.data.map (fun row => row.map (fun _ => 0)) }

/-- mio's Grid2DObject::clear(): the grid is emptied. -/
def Grid2D.clearG (g : Grid2D) : Grid2D :=
  { g with nx := 0, ny := 0, data := [] }

/-- The all-empty grid, used as an Option default when destructuring. -/
def Grid2D.nullG : Grid2D := ⟨0, 0, 0, 0, 0, []⟩

/-- One row of Array2D::fill: overwrite `deltax` cells of `trow` starting at
column `startx` with the first `deltax` cells of `srow`. -/
def rowFill (trow srow : List Val) (startx deltax : Nat) : List Val :=
  trow.take startx ++ srow.take deltax ++ trow.drop (startx + deltax)

/-- `o_grid2D.grid2D.fill(tmp.grid2D, worker_startx[ii], 0, worker_deltax[ii], dimy)`:
splice the worker sub-grid `src` into `t` at column offset `startx` (all rows,
since the fill starts at row 0 with the full height `dimy`). -/
def gridFill (t src : Grid2D) (startx deltax : Nat) : Grid2D :=
  let d := (List.range t.data.length).map
    (fun y => rowFill (t.data.getD y []) (src.data.getD y []) startx deltax)
  { t with data := d }

/-- The grid parameters (SnGrids::Parameters) the embedding distinguishes:
the seven coordinator-owned forcing parameters special-cased in getGrid, the
three diagnostic parameters queried inside setMeteo, and `DIAG n` standing
for the remaining worker-computed diagnostic parameters. -/
inductive SnParam where
  | TA | RH | VW | PSUM | PSUM_PH | ISWR | ILWR
  | GLACIER | TSS | HS
  | DIAG (n : Nat)
deriving DecidableEq, Repr

/-- The seven coordinator-owned meteorological forcing parameters (the
special cases returned directly at the top of SnowpackInterface::getGrid). -/
def SnParam.isForcing : SnParam → Bool
  | .TA | .RH | .VW | .PSUM | .PSUM_PH | .ISWR | .ILWR => true
  | _ => false

/-- One SnowpackInterfaceWorker slice as seen from the coordinator: its
column range (the worker_startx/worker_deltax entries), the outcome of each
of its per-cell model steps for the current step (`true` means the opaque
external per-cell model raises; the physical model itself is out of scope),
its buffered special-point snapshots (opaque ids), and the per-parameter
local grids it can report (`none` models an empty grid, i.e. the parameter
is unavailable in this configuration). -/
structure Worker where
  startx : Nat
  deltax : Nat
  cells : List Bool
  poiBuf : List Nat
  grids : SnParam → Option Grid2D

/-- Per-worker well-formedness of the local grid reported for `param`:
it exists, has one row per domain row and `deltax` cells per row. -/
def gridOkB (dem : Grid2D) (param : SnParam) (w : Worker) : Bool :=
  match w.grids param with
  | none => false
  | some g => g.data.length == dem.data.length &&
      g.data.all (fun row => row.length == w.deltax)

/-- Two workers own disjoint column ranges. -/
def rangeDisjB (a b : Worker) : Bool :=
  a.startx + a.deltax ≤ b.startx || b.startx + b.deltax ≤ a.startx

/-- All workers in the list own pairwise disjoint column ranges. -/
def disjointRangesB : List Worker → Bool
  | [] => true
  | w :: ws => ws.all (rangeDisjB w) && disjointRangesB ws

/-- The row of worker `w`'s local grid for `param` at row index `y`
(empty when the parameter is unavailable), as read by the splice loop. -/
def srcRow (param : SnParam) (y : Nat) (w : Worker) : List Val :=
  match w.grids param with
  | some g => g.data.getD y []
  | none => []

/-- The row-level view of one splice: overwrite this worker's column range
of `row` with its local row. -/
def rowStep (param : SnParam) (y : Nat) (row : List Val) (w : Worker) : List Val :=
  rowFill row (srcRow param y w) w.startx w.deltax

/-- One iteration of getGrid's gather loop: splice an available worker
sub-grid in at the worker's column offset, or count the worker as having no
data (`tmp.empty()` in the source). -/
def gatherStep (param : SnParam) (acc : Grid2D × Nat) (w : Worker) : Grid2D × Nat :=
  match w.grids param with
  | some tmp => (gridFill acc.1 tmp w.startx w.deltax, acc.2)
  | none => (acc.1, acc.2 + 1)

/-- The coordinator state of SnowpackInterface: the full-domain forcing
grids, the four readiness flags, the simulation clock, the attached optional
collaborators (modelled by their presence plus, for the Glaciers module, its
temperature-correction function), the worker slices and the special-point
registry. Field names follow the C++ members; worker_startx/worker_deltax
are fused into the per-worker records. -/
structure SPState where
  dimx : Nat
  dimy : Nat
  dem : Grid2D
  mns : Grid2D
  shortwave : Grid2D
  longwave : Grid2D
  diffuse : Grid2D
  psum : Grid2D
  psum_ph : Grid2D
  vw : Grid2D
  rh : Grid2D
  ta : Grid2D
  maskGlacier : Grid2D
  solarElevation : Int
  workers : List Worker
  nextStepTimestamp : Int
  timeStep : Int
  drift : Bool
  eb : Bool
  da : Bool
  dataMeteo2D : Bool
  dataDa : Bool
  dataSnowDrift : Bool
  dataRadiation : Bool
  mask_dynamic : Bool
  glacier_katabatic_flow : Bool
  glacierCorrect : Grid2D → Grid2D → Grid2D → Grid2D
  do_io_locally : Bool
  snow_write : Bool
  snow_poi_written : Bool
  pts : List (Nat × Nat)

/-- Observable output events of one coordinator call, in program order. -/
inductive Ev where
  | workerDone (processed failed : Nat)
  | poiOutput (data : List Nat)
  | snoWritten
  | gridOutput (ts : Int)
  | abortCalled
deriving DecidableEq, Repr

/-- Outcome of one calcNextStep call: returned early with nothing to do,
threw NoDataException, ran the step and called std::abort because of
per-cell failures, or ran the step to completion. -/
inductive CalcOutcome where
  | noStep
  | noData
  | aborted
  | steppedOk
deriving DecidableEq, Repr

/-- Result of calcNextStep: the coordinator state when the call ends (for
`noData` this is the state at the throw), the emitted events, the outcome. -/
structure CalcResult where
  state : SPState
  trace : List Ev
  outcome : CalcOutcome

/-- Result of getGrid: the coordinator state after the call, the returned
grid and whether the unavailable-parameter warning was printed. -/
structure GridRes where
  state : SPState
  grid : Grid2D
  warn : Bool

/-- Errors a producer setter can raise before reaching calcNextStep:
InvalidArgumentException on a timestamp mismatch, IndexOutOfBoundsException
on a grid dimension/geolocation mismatch. -/
inductive SetErr where
  | timingMismatch
  | dimMismatch
deriving DecidableEq, Repr

/-- Result of a producer setter call: the coordinator state when the call
ends (the unchanged entry state when it throws), the error if any, and the
result of the calcNextStep attempt when one was reached. -/
structure SetRes where
  state : SPState
  err : Option SetErr
  calcRes : Option CalcResult

/-- MPIControl::instance().allreduce_sum: the distributed coordination
primitive is an external capability (spec section 2); modelled for a single
process, where the collective sum over one contribution is the identity. -/
def allreduce_sum (g : Grid2D) : Grid2D := g

/-- The worker-query branch of SnowpackInterface::getGrid: start from a
zero-initialized full-domain grid, splice each worker's sub-grid in at that
worker's column offset, counting workers that report the parameter as
unavailable; allreduce the grid, then clear it (returning an empty grid)
with a warning if any worker had no data. -/
def workerGather (s : SPState) (param : SnParam) : GridRes :=
  let acc := s.workers.foldl (gatherStep param) (Grid2D.zeroLike s.dem, 0)
  let o := allreduce_sum acc.1
  if acc.2 > 0 then ⟨s, o.clearG, true⟩ else ⟨s, o, false⟩

/-- SnowpackInterface::getGrid: the seven forcing parameters are returned
straight from coordinator-owned storage; everything else is gathered from
the workers. The returned state component records the (absence of) mutation
of the coordinator by the call. -/
def getGridS (s : SPState) (param : SnParam) : GridRes :=
  match param with
  | .TA => ⟨s, s.ta, false⟩
  | .RH => ⟨s, s.rh, false⟩
  | .VW => ⟨s, s.vw, false⟩
  | .PSUM => ⟨s, s.psum, false⟩
  | .PSUM_PH => ⟨s, s.psum_ph, false⟩
  | .ISWR => ⟨s, s.shortwave, false⟩
  | .ILWR => ⟨s, s.longwave, false⟩
  | p => workerGather s p

/-- SnowpackInterface::write_special_points, single-process model (the MPI
gather loop over other ranks is empty; MPIControl is external). Workers are
polled for their special-point snapshots in ascending worker order (the
source forbids parallelizing this loop), the gathered data is written, the
special points' .sno files are written once when SNOW_WRITE is off, and
every worker's buffer is cleared. -/
def write_special_points (s : SPState) : SPState × List Ev :=
  let gathered := (s.workers.map Worker.poiBuf).flatten
  let writeSno := !s.snow_write && !s.snow_poi_written
  let evs := Ev.poiOutput gathered :: (if writeSno then [Ev.snoWritten] else [])
  let poiw := if s.do_io_locally then (if writeSno then true else s.snow_poi_written)
              else true
  ({ s with snow_poi_written := poiw,
            workers := s.workers.map (fun w => { w with poiBuf := [] }) }, evs)

/-- The simultaneous reset of the four readiness flags at the start of a
step (`dataDa = dataMeteo2D = dataSnowDrift = dataRadiation = false`). -/
def clearFlags (s : SPState) : SPState :=
  { s with dataDa := false, dataMeteo2D := false,
           dataSnowDrift := false, dataRadiation := false }

/-- SnowpackInterface::calcNextStep. Gating: return with nothing done unless
the meteo flag and the flag of every attached optional collaborator are set;
throw NoDataException if radiation is still absent past that point; clear
all four flags, run every worker (each runModel call is individually
wrapped in try/catch, so one worker's failure never stops the others), then
write special points when any are registered, abort on a nonzero failure
count, otherwise produce output and advance the clock by one step.

Modelled from the spec: SnowpackInterfaceWorker::runModel (worker code not
in the sample) steps every non-skipped cell of the slice, collecting
per-cell exceptions, "a failure in one cell's model must not abort the
other cells in the slice", and the step is a worker-level failure iff at
least one cell failed; a worker's per-cell outcomes are the `cells` field.
The forcing-grid slices passed to runModel feed only the opaque external
per-cell model, so they are not materialized here; the pushes of refreshed
grids to the attached drift/energy-balance consumers mutate only those
external modules and the file output is recorded as an event. -/
def calcNextStep (s : SPState) : CalcResult :=
  if !s.dataMeteo2D then ⟨s, [], .noStep⟩
  else if s.drift && !s.dataSnowDrift then ⟨s, [], .noStep⟩
  else if s.da && !s.dataDa then ⟨s, [], .noStep⟩
  else if s.eb && !s.dataRadiation then ⟨s, [], .noStep⟩
  else if !s.dataRadiation then ⟨s, [], .noData⟩
  else
    let s1 := clearFlags s
    let wEvs := s1.workers.map (fun w => Ev.workerDone w.cells.length (w.cells.count true))
    let errCount : Nat :=
      (s1.workers.map (fun w => if w.cells.any (fun b => b) then 1 else 0)).sum
    let afterPoi := if s1.pts.isEmpty then (s1, ([] : List Ev)) else write_special_points s1
    if errCount > 0 then
      ⟨afterPoi.1, wEvs ++ afterPoi.2 ++ [Ev.abortCalled], .aborted⟩
    else
      ⟨{ afterPoi.1 with
           nextStepTimestamp := afterPoi.1.nextStepTimestamp + afterPoi.1.timeStep },
        wEvs ++ afterPoi.2 ++ [Ev.gridOutput afterPoi.1.nextStepTimestamp], .steppedOk⟩

/-- SnowpackInterface::setMeteo: reject a timestamp that is not the expected
step timestamp (before touching any state), store the five forcing grids,
refresh the glacier mask when MASK_DYNAMIC is set, correct the air
temperature through the external Glaciers module when
GLACIER_KATABATIC_FLOW is set (the module is carried as the state's
`glacierCorrect` function; its own setGlacierMap mutation is internal to
that external module), raise the meteo readiness flag and attempt a step. -/
def setMeteo (s : SPState) (new_psum new_psum_ph new_vw new_rh new_ta : Grid2D)
    (timestamp : Int) : SetRes :=
  if s.nextStepTimestamp ≠ timestamp then ⟨s, some .timingMismatch, none⟩
  else
    let s1 := { s with psum := new_psum, psum_ph := new_psum_ph,
                       vw := new_vw, rh := new_rh }
    let s2 := if s1.mask_dynamic then { s1 with maskGlacier := (getGridS s1 .GLACIER).grid }
              else s1
    let s3 :=
      if !s2.glacier_katabatic_flow then { s2 with ta := new_ta }
      else
        let tss := (getGridS s2 .TSS).grid
        let cH := (getGridS s2 .HS).grid
        { s2 with ta := s2.glacierCorrect cH tss new_ta }
    let s4 := { s3 with dataMeteo2D := true }
    let c := calcNextStep s4
    ⟨c.state, none, some c⟩

/-- SnowpackInterface::setRadiationComponents: reject a timestamp mismatch,
then overwrite the data arrays of the stored shortwave/longwave/diffuse
grids (the inputs are raw Array2D values, assigned into `.grid2D` without
any dimension check), store the solar elevation, raise the radiation
readiness flag and attempt a step. -/
def setRadiationComponents (s : SPState)
    (shortwave_in longwave_in diff_in : List (List Val))
    (solarElevation_in : Int) (timestamp : Int) : SetRes :=
  if s.nextStepTimestamp ≠ timestamp then ⟨s, some .timingMismatch, none⟩
  else
    let s1 := { s with shortwave := { s.shortwave with data := shortwave_in },
                       longwave := { s.longwave with data := longwave_in },
                       diffuse := { s.diffuse with data := diff_in },
                       solarElevation := solarElevation_in,
                       dataRadiation := true }
    let c := calcNextStep s1
    ⟨c.state, none, some c⟩

/-- SnowpackInterface::setSnowMassChange: reject a timestamp mismatch, then
reject a grid whose geolocalization differs from the DEM
(IndexOutOfBoundsException) — both before storing anything — then store the
snow-mass-change grid, raise the snow-drift readiness flag and attempt a
step. -/
def setSnowMassChange (s : SPState) (new_mns : Grid2D) (timestamp : Int) : SetRes :=
  if s.nextStepTimestamp ≠ timestamp then ⟨s, some .timingMismatch, none⟩
  else if !(isSameGeolocalization new_mns s.dem) then ⟨s, some .dimMismatch, none⟩
  else
    let s1 := { s with mns := new_mns, dataSnowDrift := true }
    let c := calcNextStep s1
    ⟨c.state, none, some c⟩

/-- SnowpackInterface::assimilate: reject a timestamp mismatch; the supplied
data-assimilation grid is otherwise ignored (the update loop in the source
is commented out); raise the data-assimilation readiness flag and attempt a
step. -/
def assimilate (s : SPState) (_daData : Grid2D) (timestamp : Int) : SetRes :=
  if s.nextStepTimestamp ≠ timestamp then ⟨s, some .timingMismatch, none⟩
  else
    let c := calcNextStep { s with dataDa := true }
    ⟨c.state, none, some c⟩

/-- pair_comparator: sort special points by increasing y (second component)
with increasing x (first component) as the secondary key. -/
def pair_comparator (l r : Nat × Nat) : Bool :=
  if l.2 = r.2 then decide (l.1 < r.1) else decide (l.2 < r.2)

/-- The non-strict total order induced by pair_comparator ("not strictly
after"); std::sort's postcondition is sortedness with respect to it. -/
def pair_leb (a b : Nat × Nat) : Bool := !(pair_comparator b a)

/-- `pair_leb` as a relation, for the sortedness statements. -/
def pairLe (a b : Nat × Nat) : Prop := pair_leb a b = true

instance : DecidableRel pairLe :=
  fun a b => inferInstanceAs (Decidable (pair_leb a b = true))

instance : IsTotal (Nat × Nat) pairLe where
  total a b := by
    have key : ∀ u v : Nat × Nat,
        pair_leb u v = true ↔ (u.2 < v.2 ∨ (u.2 = v.2 ∧ u.1 ≤ v.1)) := by
      intro u v
      unfold pair_leb pair_comparator
      by_cases h : v.2 = u.2 <;> simp [h] <;> omega
    rw [pairLe, key, pairLe, key]
    omega

instance : IsTrans (Nat × Nat) pairLe where
  trans a b c hab hbc := by
    have key : ∀ u v : Nat × Nat,
        pair_leb u v = true ↔ (u.2 < v.2 ∨ (u.2 = v.2 ∧ u.1 ≤ v.1)) := by
      intro u v
      unfold pair_leb pair_comparator
      by_cases h : v.2 = u.2 <;> simp [h] <;> omega
    rw [pairLe, key] at hab hbc ⊢
    omega

/-- The dedup pass of prepare_pts: push each point in input order, skipping
a point whose grid cell is already present (the duplicate is only logged on
the master process, the first occurrence is kept). -/
def dedupFirst (vec_pts : List (Nat × Nat)) : List (Nat × Nat) :=
  vec_pts.foldl (fun pts q => if q ∈ pts then pts else pts ++ [q]) []

/-- prepare_pts: the POIs arrive as (getGridI, getGridJ) index pairs;
duplicates are dropped keeping the first occurrence, then the vector is
sorted with pair_comparator (std::sort; on the duplicate-free vector the
sorted result is unique, realized here by insertion sort). -/
def prepare_pts (vec_pts : List (Nat × Nat)) : List (Nat × Nat) :=
  List.insertionSort pairLe (dedupFirst vec_pts)

/-- A 2x2 demonstration grid used by the concrete witnesses. -/
def demoGrid : Grid2D := ⟨2, 2, 0, 0, 1, [[0, 0], [0, 0]]⟩

/-- Demonstration worker owning column 0 of the 2x2 domain. -/
def demoW0 : Worker :=
  ⟨0, 1, [false, false], [7],
    fun p => if p = .DIAG 0 then some ⟨1, 2, 0, 0, 1, [[10], [11]]⟩ else none⟩

/-- Demonstration worker owning column 1 of the 2x2 domain. -/
def demoW1 : Worker :=
  ⟨1, 1, [false, false], [8],
    fun p => if p = .DIAG 0 then some ⟨1, 2, 0, 0, 1, [[20], [21]]⟩ else none⟩

/-- A demonstration coordinator state: 2x2 domain split over two workers,
an attached energy-balance module, no snow-drift or data-assimilation
module, no glacier handling, one special point, all readiness flags down. -/
def demoState : SPState where
  dimx := 2
  dimy := 2
  dem := demoGrid
  mns := demoGrid
  shortwave := demoGrid
  longwave := demoGrid
  diffuse := demoGrid
  psum := demoGrid
  psum_ph := demoGrid
  vw := demoGrid
  rh := demoGrid
  ta := demoGrid
  maskGlacier := demoGrid
  solarElevation := 0
  workers := [demoW0, demoW1]
  nextStepTimestamp := 0
  timeStep := 1
  drift := false
  eb := true
  da := false
  dataMeteo2D := false
  dataDa := false
  dataSnowDrift := false
  dataRadiation := false
  mask_dynamic := false
  glacier_katabatic_flow := false
  glacierCorrect := fun _ _ t => t
  do_io_locally := true
  snow_write := true
  snow_poi_written := false
  pts := [(0, 0)]

/-- A 1x1 grid whose dimensions do not match the 2x2 demonstration DEM. -/
def badGrid : Grid2D := ⟨1, 1, 0, 0, 1, [[5]]⟩

/-- The demonstration worker for column 1 with a failing first cell. -/
def demoW1fail : Worker := { demoW1 with cells := [true, false] }

/-- The demonstration state, ready to step, with one failing cell. -/
def demoFailState : SPState :=
  { demoState with dataMeteo2D := true, dataRadiation := true,
                   workers := [demoW0, demoW1fail] }

/-- The demonstration state with no energy-balance module attached and meteo
data already present. -/
def demoNoEb : SPState := { demoState with eb := false, dataMeteo2D := true }

/-! Helper lemmas shared by several claim theorems. -/

/-- calcNextStep never modifies the stored forcing grids: the step only
clears flags, polls workers, writes output and advances the clock. -/
theorem calc_keeps_forcing (s : SPState) :
    (calcNextStep s).state.psum = s.psum ∧
    (calcNextStep s).state.psum_ph = s.psum_ph ∧
    (calcNextStep s).state.vw = s.vw ∧
    (calcNextStep s).state.rh = s.rh ∧
    (calcNextStep s).state.ta = s.ta ∧
    (calcNextStep s).state.shortwave = s.shortwave ∧
    (calcNextStep s).state.longwave = s.longwave ∧
    (calcNextStep s).state.mns = s.mns := by
  unfold calcNextStep clearFlags write_special_points
  dsimp only
  repeat' split
  all_goals simp

/-- A successful setMeteo call is a calcNextStep attempt on a state that
stores the supplied grids, raises the meteo flag and changes nothing else
relevant to stepping. -/
theorem setMeteo_ok_shape (s : SPState) (g1 g2 g3 g4 g5 : Grid2D) (ts : Int)
    (hts : s.nextStepTimestamp = ts) :
    ∃ s4 : SPState,
      setMeteo s g1 g2 g3 g4 g5 ts =
        ⟨(calcNextStep s4).state, none, some (calcNextStep s4)⟩ ∧
      s4.dataMeteo2D = true ∧ s4.dataRadiation = s.dataRadiation ∧
      s4.dataSnowDrift = s.dataSnowDrift ∧ s4.dataDa = s.dataDa ∧
      s4.drift = s.drift ∧ s4.eb = s.eb ∧ s4.da = s.da ∧
      s4.workers = s.workers ∧ s4.pts = s.pts ∧
      s4.nextStepTimestamp = s.nextStepTimestamp ∧ s4.timeStep = s.timeStep ∧
      s4.psum = g1 ∧ s4.psum_ph = g2 ∧ s4.vw = g3 ∧ s4.rh = g4 ∧
      (s.glacier_katabatic_flow = false → s4.ta = g5) ∧
      s4.shortwave = s.shortwave ∧ s4.longwave = s.longwave := by
  unfold setMeteo
  rw [if_neg (by simp [hts])]
  refine ⟨_, rfl, ?_⟩
  by_cases hmd : s.mask_dynamic <;> by_cases hgk : s.glacier_katabatic_flow <;>
    simp [hmd, hgk]

/-- With every per-cell model step succeeding, the coordinator's per-worker
failure count is zero. -/
theorem errCount_zero (ws : List Worker)
    (hok : ∀ w ∈ ws, w.cells.any (fun b => b) = false) :
    ((ws.map (fun w => if w.cells.any (fun b => b) then 1 else 0)).sum : Nat) = 0 := by
  apply List.sum_eq_zero
  intro x hx
  obtain ⟨w, hw, rfl⟩ := List.mem_map.mp hx
  simp [hok w hw]

/-- With at least one failing per-cell model step, the coordinator's
per-worker failure count is positive. -/
theorem errCount_pos (ws : List Worker)
    (hfail : ∃ w ∈ ws, w.cells.any (fun b => b) = true) :
    0 < ((ws.map (fun w => if w.cells.any (fun b => b) then 1 else 0)).sum : Nat) := by
  obtain ⟨w, hw, hwf⟩ := hfail
  have h1 : (1 : Nat) ∈ ws.map (fun w => if w.cells.any (fun b => b) then 1 else 0) := by
    refine List.mem_map.mpr ⟨w, hw, ?_⟩
    simp [hwf]
  have := List.single_le_sum (l := ws.map (fun w => if w.cells.any (fun b => b) then 1 else 0))
    (fun x _ => Nat.zero_le x) 1 h1
  omega

/-- When the gates pass, radiation is present and no worker fails,
calcNextStep runs exactly one full step: all four flags are cleared and the
clock advances by one step duration. -/
theorem calc_steps (s : SPState)
    (hm : s.dataMeteo2D = true)
    (hdr : s.drift = true → s.dataSnowDrift = true)
    (hda : s.da = true → s.dataDa = true)
    (hrad : s.dataRadiation = true)
    (hok : ∀ w ∈ s.workers, w.cells.any (fun b => b) = false) :
    (calcNextStep s).outcome = .steppedOk ∧
    (calcNextStep s).state.dataMeteo2D = false ∧
    (calcNextStep s).state.dataRadiation = false ∧
    (calcNextStep s).state.dataSnowDrift = false ∧
    (calcNextStep s).state.dataDa = false ∧
    (calcNextStep s).state.nextStepTimestamp = s.nextStepTimestamp + s.timeStep := by
  have h2 : (s.drift && !s.dataSnowDrift) = false := by
    cases hd : s.drift
    · simp
    · simp [hdr hd]
  have h3 : (s.da && !s.dataDa) = false := by
    cases hd : s.da
    · simp
    · simp [hda hd]
  have herr := errCount_zero s.workers hok
  simp only [List.any_eq_true, id_eq, exists_eq_right] at herr
  have h1 : (!s.dataMeteo2D) = false := by simp [hm]
  have h4 : (s.eb && !s.dataRadiation) = false := by simp [hrad]
  have h5 : (!s.dataRadiation) = false := by simp [hrad]
  simp only [calcNextStep, h1, h2, h3, h4, h5, Bool.false_eq_true, if_false, clearFlags]
  by_cases hp : s.pts.isEmpty <;> simp [hp, write_special_points, herr]

/-! Claim theorems. -/

/-- C10: getGrid is read-only on the coordinator: for every parameter the
call leaves the whole coordinator state (stored forcing grids, the four
readiness flags, the worker partition and the expected next-step timestamp)
unchanged. -/
theorem getGrid_readonly (s : SPState) (p : SnParam) : (getGridS s p).state = s := by
  cases p <;> simp only [getGridS, workerGather] <;> try rfl
  all_goals (split <;> rfl)

/-- C2: calling any of the four producer setters with a timestamp different
from the coordinator's expected timestamp fails with the timing-mismatch
error and is atomic: the state (all four readiness flags, the stored forcing
grids, the expected timestamp) is returned unchanged and no step attempt is
made. -/
theorem setter_timing_atomic (s : SPState) (g1 g2 g3 g4 g5 gm gda : Grid2D)
    (sw lw df : List (List Val)) (se ts : Int)
    (hts : s.nextStepTimestamp ≠ ts) :
    setMeteo s g1 g2 g3 g4 g5 ts = ⟨s, some .timingMismatch, none⟩ ∧
    setRadiationComponents s sw lw df se ts = ⟨s, some .timingMismatch, none⟩ ∧
    setSnowMassChange s gm ts = ⟨s, some .timingMismatch, none⟩ ∧
    assimilate s gda ts = ⟨s, some .timingMismatch, none⟩ := by
  refine ⟨?_, ?_, ?_, ?_⟩ <;>
    simp [setMeteo, setRadiationComponents, setSnowMassChange, assimilate, hts]

/-- Witness for C2: a mismatched timestamp at a concrete state. -/
theorem setter_timing_atomic_witness :
    demoState.nextStepTimestamp ≠ 1 ∧
    (setMeteo demoState demoGrid demoGrid demoGrid demoGrid demoGrid 1 =
        ⟨demoState, some .timingMismatch, none⟩ ∧
      setRadiationComponents demoState [] [] [] 0 1 =
        ⟨demoState, some .timingMismatch, none⟩ ∧
      setSnowMassChange demoState demoGrid 1 = ⟨demoState, some .timingMismatch, none⟩ ∧
      assimilate demoState demoGrid 1 = ⟨demoState, some .timingMismatch, none⟩) :=
  ⟨by decide, setter_timing_atomic demoState demoGrid demoGrid demoGrid demoGrid demoGrid
      demoGrid demoGrid [] [] [] 0 1 (by decide)⟩

/-- C3: when calcNextStep finds the meteo flag set and every attached
optional producer's flag set but radiation still absent, it throws the
no-data error instead of stepping, leaving the state unchanged; this
situation is only possible when no energy-balance module is attached. -/
theorem calc_noData_mandatory_radiation (s : SPState)
    (hm : s.dataMeteo2D = true)
    (hdr : s.drift = true → s.dataSnowDrift = true)
    (hda : s.da = true → s.dataDa = true)
    (heb : s.eb = true → s.dataRadiation = true)
    (hrad : s.dataRadiation = false) :
    calcNextStep s = ⟨s, [], .noData⟩ ∧ s.eb = false := by
  have hebf : s.eb = false := by
    cases hcase : s.eb
    · rfl
    · exact absurd (heb hcase) (by simp [hrad])
  have h1 : (!s.dataMeteo2D) = false := by simp [hm]
  have h2 : (s.drift && !s.dataSnowDrift) = false := by
    cases hd : s.drift
    · simp
    · simp [hdr hd]
  have h3 : (s.da && !s.dataDa) = false := by
    cases hd : s.da
    · simp
    · simp [hda hd]
  have h4 : (s.eb && !s.dataRadiation) = false := by simp [hebf]
  refine ⟨?_, hebf⟩
  simp [calcNextStep, h1, h2, h3, hrad, hebf]

/-- Witness for C3: a concrete ready state without an attached
energy-balance module and without radiation data. -/
theorem calc_noData_mandatory_radiation_witness :
    demoNoEb.dataMeteo2D = true ∧ demoNoEb.dataRadiation = false ∧
    (calcNextStep demoNoEb = ⟨demoNoEb, [], .noData⟩ ∧ demoNoEb.eb = false) :=
  ⟨rfl, rfl, calc_noData_mandatory_radiation demoNoEb rfl (by decide) (by decide)
    (by decide) rfl⟩

/-- C7: each of the seven forcing parameters special-cased by getGrid (TA,
RH, VW, PSUM, PSUM_PH, ISWR, ILWR) round-trips: a grid stored by its
producer setter at the expected timestamp and immediately retrieved via
getGrid is returned bit-identical, from coordinator-owned storage, without
querying any worker (the result does not depend on the worker list). -/
theorem forcing_roundtrip (s : SPState) (g1 g2 g3 g4 g5 : Grid2D)
    (sw lw df : List (List Val)) (se ts : Int)
    (hts : s.nextStepTimestamp = ts)
    (hkf : s.glacier_katabatic_flow = false) :
    ((setMeteo s g1 g2 g3 g4 g5 ts).err = none ∧
      (getGridS (setMeteo s g1 g2 g3 g4 g5 ts).state .PSUM).grid = g1 ∧
      (getGridS (setMeteo s g1 g2 g3 g4 g5 ts).state .PSUM_PH).grid = g2 ∧
      (getGridS (setMeteo s g1 g2 g3 g4 g5 ts).state .VW).grid = g3 ∧
      (getGridS (setMeteo s g1 g2 g3 g4 g5 ts).state .RH).grid = g4 ∧
      (getGridS (setMeteo s g1 g2 g3 g4 g5 ts).state .TA).grid = g5) ∧
    ((setRadiationComponents s sw lw df se ts).err = none ∧
      (getGridS (setRadiationComponents s sw lw df se ts).state .ISWR).grid.data = sw ∧
      (getGridS (setRadiationComponents s sw lw df se ts).state .ILWR).grid.data = lw) ∧
    (∀ (s' : SPState) (ws : List Worker) (p : SnParam), p.isForcing = true →
      (getGridS { s' with workers := ws } p).grid = (getGridS s' p).grid) := by
  obtain ⟨s4, heq, _, _, _, _, _, _, _, _, _, _, _, hpsum, hpph, hvw, hrh, hta, _, _⟩ :=
    setMeteo_ok_shape s g1 g2 g3 g4 g5 ts hts
  obtain ⟨kp, kpp, kvw, krh, kta, _, _, _⟩ := calc_keeps_forcing s4
  refine ⟨⟨?_, ?_, ?_, ?_, ?_, ?_⟩, ⟨?_, ?_, ?_⟩, ?_⟩
  · rw [heq]
  · rw [heq]; exact kp.trans hpsum
  · rw [heq]; exact kpp.trans hpph
  · rw [heq]; exact kvw.trans hvw
  · rw [heq]; exact krh.trans hrh
  · rw [heq]; exact kta.trans (hta hkf)
  · unfold setRadiationComponents
    rw [if_neg (by simp [hts])]
  · unfold setRadiationComponents
    rw [if_neg (by simp [hts])]
    exact congrArg Grid2D.data (calc_keeps_forcing _).2.2.2.2.2.1
  · unfold setRadiationComponents
    rw [if_neg (by simp [hts])]
    exact congrArg Grid2D.data (calc_keeps_forcing _).2.2.2.2.2.2.1
  · intro s' ws p hp
    cases p <;> first | rfl | simp [SnParam.isForcing] at hp

/-- Witness for C7 at the concrete demonstration state. -/
theorem forcing_roundtrip_witness :
    demoState.nextStepTimestamp = 0 ∧ demoState.glacier_katabatic_flow = false ∧
    (((setMeteo demoState badGrid demoGrid demoGrid demoGrid demoGrid 0).err = none ∧
      (getGridS (setMeteo demoState badGrid demoGrid demoGrid demoGrid demoGrid 0).state
          .PSUM).grid = badGrid ∧
      (getGridS (setMeteo demoState badGrid demoGrid demoGrid demoGrid demoGrid 0).state
          .PSUM_PH).grid = demoGrid ∧
      (getGridS (setMeteo demoState badGrid demoGrid demoGrid demoGrid demoGrid 0).state
          .VW).grid = demoGrid ∧
      (getGridS (setMeteo demoState badGrid demoGrid demoGrid demoGrid demoGrid 0).state
          .RH).grid = demoGrid ∧
      (getGridS (setMeteo demoState badGrid demoGrid demoGrid demoGrid demoGrid 0).state
          .TA).grid = demoGrid) ∧
    ((setRadiationComponents demoState [[1, 2], [3, 4]] [[5, 6], [7, 8]] [] 0 0).err = none ∧
      (getGridS (setRadiationComponents demoState [[1, 2], [3, 4]] [[5, 6], [7, 8]] [] 0 0).state
          .ISWR).grid.data = [[1, 2], [3, 4]] ∧
      (getGridS (setRadiationComponents demoState [[1, 2], [3, 4]] [[5, 6], [7, 8]] [] 0 0).state
          .ILWR).grid.data = [[5, 6], [7, 8]]) ∧
    (∀ (s' : SPState) (ws : List Worker) (p : SnParam), p.isForcing = true →
      (getGridS { s' with workers := ws } p).grid = (getGridS s' p).grid)) :=
  ⟨rfl, rfl, forcing_roundtrip demoState badGrid demoGrid demoGrid demoGrid demoGrid
    [[1, 2], [3, 4]] [[5, 6], [7, 8]] [] 0 0 rfl rfl⟩

/-- C9 counterexample: the claim says every producer setter rejects a grid
whose dimensions differ from the DEM, but setMeteo accepts a 1x1 grid on a
2x2 domain with no error and stores it. -/
theorem setter_dim_counterexample :
    isSameGeolocalization badGrid demoState.dem = false ∧
    (setMeteo demoState badGrid badGrid badGrid badGrid badGrid 0).err = none ∧
    (setMeteo demoState badGrid badGrid badGrid badGrid badGrid 0).state.psum = badGrid := by
  decide

/-- C9 amended: only the snow-drift setter setSnowMassChange validates its
grid's geolocation/dimensions against the DEM, failing with the
dimension-mismatch error and storing nothing; setMeteo and
setRadiationComponents accept and store mismatched grids without any check,
and assimilate ignores its grid entirely. -/
theorem setter_dim_validation (s : SPState) (gm g1 g2 g3 g4 g5 : Grid2D)
    (sw lw df : List (List Val)) (se ts : Int)
    (hts : s.nextStepTimestamp = ts)
    (hbad : isSameGeolocalization gm s.dem = false) :
    setSnowMassChange s gm ts = ⟨s, some .dimMismatch, none⟩ ∧
    (setMeteo s g1 g2 g3 g4 g5 ts).err = none ∧
    (setMeteo s g1 g2 g3 g4 g5 ts).state.psum = g1 ∧
    (setRadiationComponents s sw lw df se ts).err = none ∧
    (setRadiationComponents s sw lw df se ts).state.shortwave.data = sw ∧
    (assimilate s gm ts).err = none ∧
    (assimilate s gm ts).state.mns = s.mns := by
  obtain ⟨s4, heq, _, _, _, _, _, _, _, _, _, _, _, hpsum, _, _, _, _, _, _⟩ :=
    setMeteo_ok_shape s g1 g2 g3 g4 g5 ts hts
  refine ⟨?_, ?_, ?_, ?_, ?_, ?_, ?_⟩
  · unfold setSnowMassChange
    rw [if_neg (by simp [hts]), if_pos (by simp [hbad])]
  · rw [heq]
  · rw [heq]; exact (calc_keeps_forcing s4).1.trans hpsum
  · unfold setRadiationComponents
    rw [if_neg (by simp [hts])]
  · unfold setRadiationComponents
    rw [if_neg (by simp [hts])]
    exact congrArg Grid2D.data (calc_keeps_forcing _).2.2.2.2.2.1
  · unfold assimilate
    rw [if_neg (by simp [hts])]
  · unfold assimilate
    rw [if_neg (by simp [hts])]
    exact (calc_keeps_forcing _).2.2.2.2.2.2.2

/-- With an attached energy-balance module and no radiation data yet,
calcNextStep does nothing (whether or not meteo data is present). -/
theorem calc_noStep_eb (s : SPState) (heb : s.eb = true) (hrad : s.dataRadiation = false)
    (hdr : s.drift = false) (hda : s.da = false) :
    calcNextStep s = ⟨s, [], .noStep⟩ := by
  by_cases hm : s.dataMeteo2D <;> simp [calcNextStep, hm, heb, hrad, hdr, hda]

/-- A step only executes (completing or aborting) when the meteo flag and
the flag of every attached optional collaborator are set. -/
theorem calc_stepped_gates (s : SPState)
    (hout : (calcNextStep s).outcome = .steppedOk ∨ (calcNextStep s).outcome = .aborted) :
    s.dataMeteo2D = true ∧ (s.drift = true → s.dataSnowDrift = true) ∧
    (s.da = true → s.dataDa = true) ∧ (s.eb = true → s.dataRadiation = true) := by
  unfold calcNextStep at hout
  split at hout
  · exact absurd hout (by simp)
  · split at hout
    · exact absurd hout (by simp)
    · split at hout
      · exact absurd hout (by simp)
      · split at hout
        · exact absurd hout (by simp)
        · split at hout
          · exact absurd hout (by simp)
          · rename_i h1 h2 h3 h4 h5
            refine ⟨?_, ?_, ?_, ?_⟩ <;> simp_all

/-- C1: step gating. With an energy-balance producer attached (and no
snow-drift or data-assimilation module), a setMeteo call at the expected
timestamp raises only the meteo flag and does not execute a step; the
following setRadiationComponents call at the same timestamp executes
exactly one step, after which all four readiness flags are cleared and the
clock has advanced by one step duration. In general a step only executes
once every attached collaborator has supplied data for the current step. -/
theorem step_gating (s : SPState) (g1 g2 g3 g4 g5 : Grid2D)
    (sw lw df : List (List Val)) (se ts : Int)
    (heb : s.eb = true) (hdrift : s.drift = false) (hdaAtt : s.da = false)
    (hrad : s.dataRadiation = false)
    (hts : s.nextStepTimestamp = ts)
    (hok : ∀ w ∈ s.workers, w.cells.any (fun b => b) = false) :
    ((setMeteo s g1 g2 g3 g4 g5 ts).err = none ∧
      (setMeteo s g1 g2 g3 g4 g5 ts).calcRes.map CalcResult.outcome = some .noStep ∧
      (setMeteo s g1 g2 g3 g4 g5 ts).state.dataMeteo2D = true ∧
      (setMeteo s g1 g2 g3 g4 g5 ts).state.dataRadiation = false ∧
      (setMeteo s g1 g2 g3 g4 g5 ts).state.nextStepTimestamp = s.nextStepTimestamp) ∧
    ((setRadiationComponents (setMeteo s g1 g2 g3 g4 g5 ts).state sw lw df se ts).err = none ∧
      (setRadiationComponents (setMeteo s g1 g2 g3 g4 g5 ts).state sw lw df se
          ts).calcRes.map CalcResult.outcome = some .steppedOk ∧
      (setRadiationComponents (setMeteo s g1 g2 g3 g4 g5 ts).state sw lw df se
          ts).state.dataMeteo2D = false ∧
      (setRadiationComponents (setMeteo s g1 g2 g3 g4 g5 ts).state sw lw df se
          ts).state.dataRadiation = false ∧
      (setRadiationComponents (setMeteo s g1 g2 g3 g4 g5 ts).state sw lw df se
          ts).state.dataSnowDrift = false ∧
      (setRadiationComponents (setMeteo s g1 g2 g3 g4 g5 ts).state sw lw df se
          ts).state.dataDa = false ∧
      (setRadiationComponents (setMeteo s g1 g2 g3 g4 g5 ts).state sw lw df se
          ts).state.nextStepTimestamp = s.nextStepTimestamp + s.timeStep) ∧
    (∀ s' : SPState,
      (calcNextStep s').outcome = .steppedOk ∨ (calcNextStep s').outcome = .aborted →
      s'.dataMeteo2D = true ∧ (s'.drift = true → s'.dataSnowDrift = true) ∧
      (s'.da = true → s'.dataDa = true) ∧ (s'.eb = true → s'.dataRadiation = true)) := by
  obtain ⟨s4, heq, hm4, hrad4, hsd4, hda4, hdr4, heb4, hdaA4, hws4, hpts4, hnst4, hdt4,
    _, _, _, _, _, _, _⟩ := setMeteo_ok_shape s g1 g2 g3 g4 g5 ts hts
  have hstep1 : calcNextStep s4 = ⟨s4, [], .noStep⟩ :=
    calc_noStep_eb s4 (heb4.trans heb) (hrad4.trans hrad) (hdr4.trans hdrift)
      (hdaA4.trans hdaAtt)
  rw [heq, hstep1]
  dsimp only
  have hts4 : s4.nextStepTimestamp = ts := hnst4.trans hts
  have hsteps := calc_steps
    { s4 with shortwave := { s4.shortwave with data := sw },
              longwave := { s4.longwave with data := lw },
              diffuse := { s4.diffuse with data := df },
              solarElevation := se, dataRadiation := true }
    hm4 (fun h => absurd ((hdr4.trans hdrift).symm.trans h) (by decide))
    (fun h => absurd ((hdaA4.trans hdaAtt).symm.trans h) (by decide))
    rfl
    (fun w hw => hok w (hws4 ▸ (show w ∈ s4.workers from hw)))
  refine ⟨⟨rfl, rfl, hm4, hrad4.trans hrad, hnst4⟩, ?_, fun s' hout => calc_stepped_gates s' hout⟩
  unfold setRadiationComponents
  rw [if_neg (by simp [hts4])]
  refine ⟨rfl, ?_, ?_, ?_, ?_, ?_, ?_⟩
  · simp [hsteps.1]
  · exact hsteps.2.1
  · exact hsteps.2.2.1
  · exact hsteps.2.2.2.1
  · exact hsteps.2.2.2.2.1
  · refine (hsteps.2.2.2.2.2).trans ?_
    show s4.nextStepTimestamp + s4.timeStep = s.nextStepTimestamp + s.timeStep
    rw [hnst4, hdt4]

/-- Witness for C1 at the concrete demonstration state. -/
theorem step_gating_witness :
    demoState.eb = true ∧ demoState.dataRadiation = false ∧
    (((setMeteo demoState demoGrid demoGrid demoGrid demoGrid demoGrid 0).err = none ∧
      (setMeteo demoState demoGrid demoGrid demoGrid demoGrid demoGrid 0).calcRes.map
        CalcResult.outcome = some .noStep ∧
      (setMeteo demoState demoGrid demoGrid demoGrid demoGrid demoGrid 0).state.dataMeteo2D = true ∧
      (setMeteo demoState demoGrid demoGrid demoGrid demoGrid demoGrid
          0).state.dataRadiation = false ∧
      (setMeteo demoState demoGrid demoGrid demoGrid demoGrid demoGrid
          0).state.nextStepTimestamp = demoState.nextStepTimestamp) ∧
    ((setRadiationComponents (setMeteo demoState demoGrid demoGrid demoGrid demoGrid demoGrid
          0).state [[1, 2], [3, 4]] [[5, 6], [7, 8]] [] 0 0).err = none ∧
      (setRadiationComponents (setMeteo demoState demoGrid demoGrid demoGrid demoGrid demoGrid
          0).state [[1, 2], [3, 4]] [[5, 6], [7, 8]] [] 0 0).calcRes.map
        CalcResult.outcome = some .steppedOk ∧
      (setRadiationComponents (setMeteo demoState demoGrid demoGrid demoGrid demoGrid demoGrid
          0).state [[1, 2], [3, 4]] [[5, 6], [7, 8]] [] 0 0).state.dataMeteo2D = false ∧
      (setRadiationComponents (setMeteo demoState demoGrid demoGrid demoGrid demoGrid demoGrid
          0).state [[1, 2], [3, 4]] [[5, 6], [7, 8]] [] 0 0).state.dataRadiation = false ∧
      (setRadiationComponents (setMeteo demoState demoGrid demoGrid demoGrid demoGrid demoGrid
          0).state [[1, 2], [3, 4]] [[5, 6], [7, 8]] [] 0 0).state.dataSnowDrift = false ∧
      (setRadiationComponents (setMeteo demoState demoGrid demoGrid demoGrid demoGrid demoGrid
          0).state [[1, 2], [3, 4]] [[5, 6], [7, 8]] [] 0 0).state.dataDa = false ∧
      (setRadiationComponents (setMeteo demoState demoGrid demoGrid demoGrid demoGrid demoGrid
          0).state [[1, 2], [3, 4]] [[5, 6], [7, 8]] [] 0
          0).state.nextStepTimestamp = demoState.nextStepTimestamp + demoState.timeStep) ∧
    (∀ s' : SPState,
      (calcNextStep s').outcome = .steppedOk ∨ (calcNextStep s').outcome = .aborted →
      s'.dataMeteo2D = true ∧ (s'.drift = true → s'.dataSnowDrift = true) ∧
      (s'.da = true → s'.dataDa = true) ∧ (s'.eb = true → s'.dataRadiation = true))) :=
  ⟨rfl, rfl, step_gating demoState demoGrid demoGrid demoGrid demoGrid demoGrid
    [[1, 2], [3, 4]] [[5, 6], [7, 8]] [] 0 0 rfl rfl rfl rfl rfl (by decide)⟩

/-- C4: failure isolation and escalation. On a step attempt with all gates
passed and special points registered: if at least one per-cell model step
fails, every worker slice still completes all of its cells, the
special-point output for all workers is still produced, and only after that
output the process aborts; with zero failures the step completes normally
and the clock advances (no abort). -/
theorem failure_escalation (s : SPState)
    (hm : s.dataMeteo2D = true)
    (hdr : s.drift = true → s.dataSnowDrift = true)
    (hda : s.da = true → s.dataDa = true)
    (hrad : s.dataRadiation = true)
    (hpts : s.pts ≠ []) :
    ((∃ w ∈ s.workers, w.cells.any (fun b => b) = true) →
      (calcNextStep s).outcome = .aborted ∧
      (∃ l1, (calcNextStep s).trace = l1 ++ [Ev.abortCalled] ∧
        Ev.poiOutput ((s.workers.map Worker.poiBuf).flatten) ∈ l1) ∧
      (∀ w ∈ s.workers,
        Ev.workerDone w.cells.length (w.cells.count true) ∈ (calcNextStep s).trace)) ∧
    ((∀ w ∈ s.workers, w.cells.any (fun b => b) = false) →
      (calcNextStep s).outcome = .steppedOk ∧
      (calcNextStep s).state.nextStepTimestamp = s.nextStepTimestamp + s.timeStep ∧
      Ev.abortCalled ∉ (calcNextStep s).trace) := by
  have h1 : (!s.dataMeteo2D) = false := by simp [hm]
  have h2 : (s.drift && !s.dataSnowDrift) = false := by
    cases hd : s.drift
    · simp
    · simp [hdr hd]
  have h3 : (s.da && !s.dataDa) = false := by
    cases hd : s.da
    · simp
    · simp [hda hd]
  have h4 : (s.eb && !s.dataRadiation) = false := by simp [hrad]
  have h5 : (!s.dataRadiation) = false := by simp [hrad]
  have hp : s.pts.isEmpty = false := by
    cases hpp : s.pts
    · exact absurd hpp hpts
    · rfl
  constructor
  · intro hfail
    have herr := errCount_pos s.workers hfail
    simp only [List.any_eq_true, id_eq, exists_eq_right] at herr
    simp only [calcNextStep, h1, h2, h3, h4, h5, Bool.false_eq_true, if_false, clearFlags,
      write_special_points]
    simp only [hp]
    simp [herr]
    constructor
    · refine ⟨List.map (fun w => Ev.workerDone w.cells.length (List.count true w.cells))
          s.workers ++
        Ev.poiOutput (List.map Worker.poiBuf s.workers).flatten ::
          (if s.snow_write = false ∧ s.snow_poi_written = false then [Ev.snoWritten] else []),
        ?_, ?_⟩
      · simp
      · simp
    · intro w hw
      exact ⟨w, hw, rfl, rfl⟩
  · intro hok
    have herr := errCount_zero s.workers hok
    simp only [List.any_eq_true, id_eq, exists_eq_right] at herr
    simp only [calcNextStep, h1, h2, h3, h4, h5, Bool.false_eq_true, if_false, clearFlags,
      write_special_points]
    simp only [hp]
    simp [herr]

/-- Witness for C4: a concrete ready state with one failing cell in the
second worker; all other cells complete and the special-point output is
written before the abort. -/
theorem failure_escalation_witness :
    demoFailState.pts ≠ [] ∧
    ((calcNextStep demoFailState).outcome = .aborted ∧
      (∃ l1, (calcNextStep demoFailState).trace = l1 ++ [Ev.abortCalled] ∧
        Ev.poiOutput ((demoFailState.workers.map Worker.poiBuf).flatten) ∈ l1) ∧
      (∀ w ∈ demoFailState.workers,
        Ev.workerDone w.cells.length (w.cells.count true) ∈ (calcNextStep demoFailState).trace)) := by
  have h := failure_escalation demoFailState rfl (by decide) (by decide) rfl (by decide)
  exact ⟨by decide, h.1 (by decide)⟩

/-- The accumulator pass of prepare_pts keeps the point list duplicate-free. -/
theorem dedup_aux_nodup (v : List (Nat × Nat)) :
    ∀ acc : List (Nat × Nat), acc.Nodup →
      (v.foldl (fun pts q => if q ∈ pts then pts else pts ++ [q]) acc).Nodup := by
  induction v with
  | nil => intro acc h; simpa using h
  | cons q v ih =>
    intro acc h
    simp only [List.foldl_cons]
    by_cases hq : q ∈ acc
    · rw [if_pos hq]; exact ih acc h
    · rw [if_neg hq]
      exact ih _ (by simp [List.nodup_append, h, hq])

/-- The accumulator pass of prepare_pts neither loses nor invents points. -/
theorem dedup_aux_mem (v : List (Nat × Nat)) :
    ∀ (acc : List (Nat × Nat)) (q : Nat × Nat),
      (q ∈ v.foldl (fun pts r => if r ∈ pts then pts else pts ++ [r]) acc) ↔
        q ∈ acc ∨ q ∈ v := by
  induction v with
  | nil => simp
  | cons r v ih =>
    intro acc q
    simp only [List.foldl_cons]
    by_cases hr : r ∈ acc
    · rw [if_pos hr, ih]
      constructor
      · rintro (h | h)
        · exact Or.inl h
        · exact Or.inr (List.mem_cons_of_mem r h)
      · rintro (h | h)
        · exact Or.inl h
        · rcases List.mem_cons.mp h with h | h
          · exact Or.inl (h ▸ hr)
          · exact Or.inr h
    · rw [if_neg hr, ih]
      simp only [List.mem_append, List.mem_singleton, List.mem_cons]
      tauto

/-- C8: special-point registration. prepare_pts on the spec's example input
yields the canonical order (1,0), (1,1), (3,1); in general the registry it
builds has exactly one entry per distinct input grid cell (duplicates are
dropped, the first occurrence kept) and is strictly sorted by
pair_comparator (ascending second coordinate, then ascending first). -/
theorem prepare_pts_spec :
    prepare_pts [(3, 1), (1, 1), (1, 0)] = [(1, 0), (1, 1), (3, 1)] ∧
    ∀ v : List (Nat × Nat),
      (prepare_pts v).Nodup ∧
      (∀ q, q ∈ prepare_pts v ↔ q ∈ v) ∧
      (prepare_pts v).Pairwise (fun a b => pair_comparator a b = true) := by
  refine ⟨by decide, fun v => ?_⟩
  have hperm := List.perm_insertionSort pairLe (dedupFirst v)
  have hnd : (dedupFirst v).Nodup := dedup_aux_nodup v [] List.nodup_nil
  have hnds : (prepare_pts v).Nodup := (hperm.nodup_iff).mpr hnd
  refine ⟨hnds, ?_, ?_⟩
  · intro q
    rw [prepare_pts, hperm.mem_iff, dedupFirst, dedup_aux_mem v [] q]
    simp
  · have hs : (prepare_pts v).Pairwise pairLe := List.sorted_insertionSort pairLe _
    have hne : (prepare_pts v).Pairwise (fun a b => a ≠ b) := hnds
    refine (hs.and hne).imp ?_
    rintro ⟨xa, ya⟩ ⟨xb, yb⟩ ⟨hle, hneq⟩
    have key : ∀ u w : Nat × Nat,
        pair_comparator u w = true ↔ (u.2 < w.2 ∨ (u.2 = w.2 ∧ u.1 < w.1)) := by
      intro u w
      unfold pair_comparator
      by_cases h : u.2 = w.2 <;> simp [h]
    rw [key]
    rw [pairLe, pair_leb, Bool.not_eq_true', Bool.eq_false_iff, Ne, key] at hle
    have hneq2 : ¬(xa = xb ∧ ya = yb) := fun h => hneq (by rw [h.1, h.2])
    have hle2 : ¬(yb < ya ∨ (yb = ya ∧ xb < xa)) := hle
    show ya < yb ∨ (ya = yb ∧ xa < xb)
    omega

/-- rowFill preserves the row length when the splice fits. -/
theorem rowFill_length (trow srow : List Val) (startx deltax : Nat)
    (hs : srow.length = deltax) (ht : startx + deltax ≤ trow.length) :
    (rowFill trow srow startx deltax).length = trow.length := by
  simp only [rowFill, List.length_append, List.length_take, List.length_drop, hs]
  omega

/-- rowFill leaves cells left of the splice range unchanged. -/
theorem rowFill_getD_lt (trow srow : List Val) (startx deltax x : Nat)
    (hx : x < startx) (ht : startx + deltax ≤ trow.length) :
    (rowFill trow srow startx deltax).getD x 0 = trow.getD x 0 := by
  have h1 : (trow.take startx).length = startx := by
    simp only [List.length_take]; omega
  simp only [rowFill, List.getD_eq_getElem?_getD]
  rw [List.getElem?_append, if_pos (by simp only [List.length_append, h1]; omega),
    List.getElem?_append, if_pos (by rw [h1]; omega),
    List.getElem?_take, if_pos hx]

/-- rowFill writes the source cells inside the splice range. -/
theorem rowFill_getD_mid (trow srow : List Val) (startx deltax x : Nat)
    (hx1 : startx ≤ x) (hx2 : x < startx + deltax)
    (hs : srow.length = deltax) (ht : startx + deltax ≤ trow.length) :
    (rowFill trow srow startx deltax).getD x 0 = srow.getD (x - startx) 0 := by
  have h1 : (trow.take startx).length = startx := by
    simp only [List.length_take]; omega
  have h2 : (srow.take deltax).length = deltax := by
    simp only [List.length_take, hs]; omega
  simp only [rowFill, List.getD_eq_getElem?_getD]
  rw [List.getElem?_append, if_pos (by simp only [List.length_append, h1, h2]; omega),
    List.getElem?_append, if_neg (by rw [h1]; omega), h1,
    List.getElem?_take, if_pos (by omega)]

/-- rowFill leaves cells right of the splice range unchanged. -/
theorem rowFill_getD_ge (trow srow : List Val) (startx deltax x : Nat)
    (hx : startx + deltax ≤ x)
    (hs : srow.length = deltax) (ht : startx + deltax ≤ trow.length) :
    (rowFill trow srow startx deltax).getD x 0 = trow.getD x 0 := by
  have h1 : (trow.take startx).length = startx := by
    simp only [List.length_take]; omega
  have h2 : (srow.take deltax).length = deltax := by
    simp only [List.length_take, hs]; omega
  simp only [rowFill, List.getD_eq_getElem?_getD]
  rw [List.getElem?_append, if_neg (by simp only [List.length_append, h1, h2]; omega),
    List.getElem?_drop]
  simp only [List.length_append, h1, h2]
  congr 2
  omega

/-- gridFill keeps the number of rows of the target. -/
theorem gridFill_data_length (t src : Grid2D) (a b : Nat) :
    (gridFill t src a b).data.length = t.data.length := by
  simp [gridFill]

/-- Row extraction through gridFill. -/
theorem gridFill_row (t src : Grid2D) (a b y : Nat) (hy : y < t.data.length) :
    (gridFill t src a b).data.getD y [] =
      rowFill (t.data.getD y []) (src.data.getD y []) a b := by
  simp only [gridFill, List.getD_eq_getElem?_getD]
  rw [List.getElem?_map, List.getElem?_range hy]
  rfl

/-- The gather loop's unavailable-worker count never decreases. -/
theorem gather_count_mono (param : SnParam) (ws : List Worker) (acc : Grid2D × Nat) :
    acc.2 ≤ (ws.foldl (gatherStep param) acc).2 := by
  induction ws generalizing acc with
  | nil => simp
  | cons w ws ih =>
    simp only [List.foldl_cons]
    refine le_trans ?_ (ih _)
    unfold gatherStep
    cases w.grids param <;> simp

/-- If some worker reports no data, the gather loop counts at least one. -/
theorem gather_count_pos (param : SnParam) (ws : List Worker) (acc : Grid2D × Nat)
    (h : ∃ w ∈ ws, w.grids param = none) :
    0 < (ws.foldl (gatherStep param) acc).2 := by
  induction ws generalizing acc with
  | nil => simp at h
  | cons w ws ih =>
    simp only [List.foldl_cons]
    rcases h with ⟨w', hw', hnone⟩
    rcases List.mem_cons.mp hw' with rfl | hmem
    · have hstep : 0 < (gatherStep param acc w').2 := by
        unfold gatherStep
        rw [hnone]
        simp
      exact lt_of_lt_of_le hstep (gather_count_mono param ws _)
    · exact ih _ ⟨w', hmem, hnone⟩

/-- If every worker reports data, the gather loop counts nothing. -/
theorem gather_count_zero (param : SnParam) (ws : List Worker) (acc : Grid2D × Nat)
    (h : ∀ w ∈ ws, (w.grids param).isSome = true) :
    (ws.foldl (gatherStep param) acc).2 = acc.2 := by
  induction ws generalizing acc with
  | nil => rfl
  | cons w ws ih =>
    simp only [List.foldl_cons]
    rw [ih _ (fun w' hw' => h w' (List.mem_cons_of_mem _ hw'))]
    have hw := h w (List.mem_cons_self w ws)
    unfold gatherStep
    cases hg : w.grids param
    · rw [hg] at hw; simp at hw
    · simp

/-- The gather loop keeps the number of rows of the accumulated grid. -/
theorem gather_rows_length (param : SnParam) (ws : List Worker) (t : Grid2D × Nat) :
    (ws.foldl (gatherStep param) t).1.data.length = t.1.data.length := by
  induction ws generalizing t with
  | nil => rfl
  | cons w ws ih =>
    simp only [List.foldl_cons]
    rw [ih]
    unfold gatherStep
    cases w.grids param <;> simp [gridFill_data_length]

/-- When every worker reports data, the gather loop acts row by row. -/
theorem gather_row (param : SnParam) (ws : List Worker) (t : Grid2D × Nat) (y : Nat)
    (hy : y < t.1.data.length)
    (hall : ∀ w ∈ ws, (w.grids param).isSome = true) :
    (ws.foldl (gatherStep param) t).1.data.getD y [] =
      ws.foldl (rowStep param y) (t.1.data.getD y []) := by
  induction ws generalizing t with
  | nil => rfl
  | cons w ws ih =>
    simp only [List.foldl_cons]
    have hw := hall w (List.mem_cons_self w ws)
    cases hg : w.grids param with
    | none => rw [hg] at hw; simp at hw
    | some g =>
      have hstep : gatherStep param t w = (gridFill t.1 g w.startx w.deltax, t.2) := by
        unfold gatherStep
        rw [hg]
      rw [hstep, ih _ (by rw [gridFill_data_length]; exact hy)
        (fun w' hw' => hall w' (List.mem_cons_of_mem _ hw'))]
      congr 1
      rw [gridFill_row _ _ _ _ _ hy]
      congr 1
      unfold srcRow
      rw [hg]

/-- The row-level gather keeps the row length. -/
theorem rowfold_length (param : SnParam) (y : Nat) (ws : List Worker) (row : List Val)
    (L : Nat) (hrow : row.length = L)
    (hws : ∀ w ∈ ws, w.startx + w.deltax ≤ L ∧ (srcRow param y w).length = w.deltax) :
    (ws.foldl (rowStep param y) row).length = L := by
  induction ws generalizing row with
  | nil => simpa using hrow
  | cons w ws ih =>
    simp only [List.foldl_cons]
    obtain ⟨h1, h2⟩ := hws w (List.mem_cons_self w ws)
    refine ih (rowStep param y row w) ?_ (fun w' hw' => hws w' (List.mem_cons_of_mem _ hw'))
    unfold rowStep
    rw [rowFill_length _ _ _ _ h2 (hrow.symm ▸ h1)]
    exact hrow

/-- A column outside every listed worker's range is untouched by the
row-level gather. -/
theorem rowfold_outside (param : SnParam) (y : Nat) (ws : List Worker) (row : List Val)
    (x L : Nat) (hrow : row.length = L)
    (hws : ∀ w ∈ ws, w.startx + w.deltax ≤ L ∧ (srcRow param y w).length = w.deltax)
    (hout : ∀ w ∈ ws, x < w.startx ∨ w.startx + w.deltax ≤ x) :
    (ws.foldl (rowStep param y) row).getD x 0 = row.getD x 0 := by
  induction ws generalizing row with
  | nil => rfl
  | cons w ws ih =>
    simp only [List.foldl_cons]
    obtain ⟨h1, h2⟩ := hws w (List.mem_cons_self w ws)
    have hlen : (rowStep param y row w).length = L := by
      unfold rowStep
      rw [rowFill_length _ _ _ _ h2 (hrow.symm ▸ h1)]
      exact hrow
    rw [ih (rowStep param y row w) hlen
      (fun w' hw' => hws w' (List.mem_cons_of_mem _ hw'))
      (fun w' hw' => hout w' (List.mem_cons_of_mem _ hw'))]
    rcases hout w (List.mem_cons_self w ws) with h | h
    · exact rowFill_getD_lt _ _ _ _ _ h (hrow.symm ▸ h1)
    · exact rowFill_getD_ge _ _ _ _ _ h h2 (hrow.symm ▸ h1)

/-- The row-level gather writes each column from the worker owning it. -/
theorem rowfold_owner (param : SnParam) (y : Nat) (l1 l2 : List Worker) (w : Worker)
    (row : List Val) (x L : Nat) (hrow : row.length = L)
    (hws1 : ∀ w' ∈ l1, w'.startx + w'.deltax ≤ L ∧ (srcRow param y w').length = w'.deltax)
    (hw : w.startx + w.deltax ≤ L ∧ (srcRow param y w).length = w.deltax)
    (hws2 : ∀ w' ∈ l2, w'.startx + w'.deltax ≤ L ∧ (srcRow param y w').length = w'.deltax)
    (hx : w.startx ≤ x ∧ x < w.startx + w.deltax)
    (hout2 : ∀ w' ∈ l2, x < w'.startx ∨ w'.startx + w'.deltax ≤ x) :
    ((l1 ++ w :: l2).foldl (rowStep param y) row).getD x 0 =
      (srcRow param y w).getD (x - w.startx) 0 := by
  rw [List.foldl_append, List.foldl_cons]
  have hlen1 : (l1.foldl (rowStep param y) row).length = L :=
    rowfold_length param y l1 row L hrow hws1
  have hlen2 : (rowStep param y (l1.foldl (rowStep param y) row) w).length = L := by
    unfold rowStep
    rw [rowFill_length _ _ _ _ hw.2 (hlen1.symm ▸ hw.1)]
    exact hlen1
  rw [rowfold_outside param y l2 _ x L hlen2 hws2 hout2]
  exact rowFill_getD_mid _ _ _ _ _ hx.1 hx.2 hw.2 (hlen1.symm ▸ hw.1)

/-- Worker-range disjointness restricts to any suffix of the worker list. -/
theorem disjoint_suffix (l1 l2 : List Worker)
    (h : disjointRangesB (l1 ++ l2) = true) : disjointRangesB l2 = true := by
  induction l1 with
  | nil => simpa using h
  | cons a l1 ih =>
    apply ih
    simp only [List.cons_append, disjointRangesB, Bool.and_eq_true] at h
    exact h.2

/-- When every worker reports the parameter, getGrid's gather returns the
spliced grid with no warning (the cross-process reduction is the identity
on a single process). -/
theorem workerGather_allsome (s : SPState) (p : SnParam)
    (hall : ∀ w' ∈ s.workers, (w'.grids p).isSome = true) :
    workerGather s p =
      ⟨s, (s.workers.foldl (gatherStep p) (Grid2D.zeroLike s.dem, 0)).1, false⟩ := by
  unfold workerGather
  have h0 := gather_count_zero p s.workers (Grid2D.zeroLike s.dem, 0) hall
  rw [if_neg (by simp [h0])]
  rfl

/-- An in-range default read of a list is one of its members. -/
theorem getD_mem_of_lt (l : List (List Val)) (y : Nat) (d : List Val)
    (hy : y < l.length) : l.getD y d ∈ l := by
  rw [List.getD_eq_getElem?_getD, List.getElem?_eq_getElem hy]
  exact List.getElem_mem hy

/-- C5: aggregation correctness of getGrid for a worker-computed parameter.
When every worker reports a well-formed sub-grid, the gathered full-domain
grid has one row per domain row, carries no warning, and each cell in the
column range of worker `i` holds exactly that worker's value at the
column offset `x - startx` — the grid is the concatenation of the workers'
sub-grids spliced into a zero-initialized domain grid (the cross-process
sum-reduction being the identity for the single-process model). -/
theorem getGrid_aggregation (s : SPState) (p : SnParam) (i x y : Nat) (w : Worker)
    (g : Grid2D)
    (hpf : p.isForcing = false)
    (hdem : ∀ row ∈ s.dem.data, row.length = s.dimx)
    (havail : ∀ w' ∈ s.workers, gridOkB s.dem p w' = true)
    (hrange : ∀ w' ∈ s.workers, w'.startx + w'.deltax ≤ s.dimx)
    (hdisj : disjointRangesB s.workers = true)
    (hw : s.workers[i]? = some w)
    (hg : w.grids p = some g)
    (hx : w.startx ≤ x ∧ x < w.startx + w.deltax)
    (hy : y < s.dem.data.length) :
    (getGridS s p).grid.get x y = g.get (x - w.startx) y ∧
    (getGridS s p).warn = false ∧
    (getGridS s p).grid.data.length = s.dem.data.length := by
  have hred : getGridS s p = workerGather s p := by
    cases p <;> first | rfl | simp [SnParam.isForcing] at hpf
  have hall : ∀ w' ∈ s.workers, (w'.grids p).isSome = true := by
    intro w' hw'
    have h := havail w' hw'
    unfold gridOkB at h
    cases hg' : w'.grids p
    · rw [hg'] at h; simp at h
    · simp
  have hcond : ∀ w' ∈ s.workers,
      w'.startx + w'.deltax ≤ s.dimx ∧ (srcRow p y w').length = w'.deltax := by
    intro w' hw'
    refine ⟨hrange w' hw', ?_⟩
    have h := havail w' hw'
    unfold gridOkB at h
    cases hg' : w'.grids p with
    | none => rw [hg'] at h; simp at h
    | some g' =>
      rw [hg'] at h
      simp only [Bool.and_eq_true, beq_iff_eq, List.all_eq_true] at h
      unfold srcRow
      rw [hg']
      have hyg : y < g'.data.length := by rw [h.1]; exact hy
      exact h.2 _ (getD_mem_of_lt _ _ _ hyg)
  obtain ⟨hi, hwi⟩ := List.getElem?_eq_some_iff.mp hw
  have hwmem : w ∈ s.workers := hwi ▸ List.getElem_mem hi
  have hsplit : s.workers = s.workers.take i ++ w :: s.workers.drop (i + 1) := by
    conv_lhs => rw [← List.take_append_drop i s.workers]
    rw [List.drop_eq_getElem_cons hi, hwi]
  have hdisj2 : disjointRangesB (w :: s.workers.drop (i + 1)) = true :=
    disjoint_suffix (s.workers.take i) _ (by rw [← hsplit]; exact hdisj)
  have hall2 : ∀ w' ∈ s.workers.drop (i + 1), rangeDisjB w w' = true := by
    simp only [disjointRangesB, Bool.and_eq_true, List.all_eq_true] at hdisj2
    exact hdisj2.1
  have hout2 : ∀ w' ∈ s.workers.drop (i + 1),
      x < w'.startx ∨ w'.startx + w'.deltax ≤ x := by
    intro w' hw'
    have h := hall2 w' hw'
    unfold rangeDisjB at h
    simp only [Bool.or_eq_true, decide_eq_true_eq] at h
    rcases h with h | h
    · left; omega
    · right; omega
  have hzrows : (Grid2D.zeroLike s.dem).data.length = s.dem.data.length := by
    simp [Grid2D.zeroLike]
  have hzrow : (Grid2D.zeroLike s.dem).data.getD y [] =
      (s.dem.data.getD y []).map (fun _ => 0) := by
    simp only [Grid2D.zeroLike, List.getD_eq_getElem?_getD, List.getElem?_map,
      List.getElem?_eq_getElem hy]
    rfl
  have hzlen : ((Grid2D.zeroLike s.dem).data.getD y []).length = s.dimx := by
    rw [hzrow, List.length_map]
    exact hdem _ (getD_mem_of_lt _ _ _ hy)
  rw [hred, workerGather_allsome s p hall]
  refine ⟨?_, rfl, ?_⟩
  · show ((s.workers.foldl (gatherStep p) (Grid2D.zeroLike s.dem, 0)).1).get x y =
      g.get (x - w.startx) y
    unfold Grid2D.get
    rw [gather_row p s.workers (Grid2D.zeroLike s.dem, 0) y (by rw [hzrows]; exact hy) hall]
    conv_lhs => rw [hsplit]
    rw [rowfold_owner p y (s.workers.take i) (s.workers.drop (i + 1)) w
      ((Grid2D.zeroLike s.dem, 0).1.data.getD y []) x s.dimx hzlen
      (fun w' hw' => hcond w' (List.mem_of_mem_take hw'))
      (hcond w hwmem)
      (fun w' hw' => hcond w' (List.mem_of_mem_drop hw'))
      hx hout2]
    unfold srcRow
    rw [hg]
  · show ((s.workers.foldl (gatherStep p) (Grid2D.zeroLike s.dem, 0)).1).data.length =
      s.dem.data.length
    rw [gather_rows_length]
    exact hzrows

/-- Witness for C5: worker 1 of the demonstration state owns column 1; the
gathered grid's cell (1,1) is that worker's local cell (0,1). -/
theorem getGrid_aggregation_witness :
    demoW1.startx ≤ 1 ∧ 1 < demoW1.startx + demoW1.deltax ∧
    ((getGridS demoState (.DIAG 0)).grid.get 1 1 =
        (⟨1, 2, 0, 0, 1, [[20], [21]]⟩ : Grid2D).get (1 - demoW1.startx) 1 ∧
      (getGridS demoState (.DIAG 0)).warn = false ∧
      (getGridS demoState (.DIAG 0)).grid.data.length = demoState.dem.data.length) :=
  ⟨by decide, by decide,
    getGrid_aggregation demoState (.DIAG 0) 1 1 1 demoW1 ⟨1, 2, 0, 0, 1, [[20], [21]]⟩
      (by decide) (by decide) (by decide) (by decide) (by decide) rfl (by decide)
      (by decide) (by decide)⟩

/-- C6: if any worker reports the requested (non-forcing) parameter as
unavailable, getGrid returns the cleared empty grid together with the
diagnostic warning — never a partially filled or zero-filled grid — and the
coordinator state is untouched (the unavailability is not an exception). -/
theorem getGrid_unavailable (s : SPState) (p : SnParam)
    (hpf : p.isForcing = false)
    (hun : ∃ w ∈ s.workers, w.grids p = none) :
    (getGridS s p).grid.data = [] ∧ (getGridS s p).grid.nx = 0 ∧
    (getGridS s p).grid.ny = 0 ∧
    (getGridS s p).warn = true ∧ (getGridS s p).state = s := by
  have hred : getGridS s p = workerGather s p := by
    cases p <;> first | rfl | simp [SnParam.isForcing] at hpf
  have hpos := gather_count_pos p s.workers (Grid2D.zeroLike s.dem, 0) hun
  rw [hred]
  simp only [workerGather]
  rw [if_pos hpos]
  exact ⟨rfl, rfl, rfl, rfl, rfl⟩

/-- Witness for C6: no demonstration worker computes parameter DIAG 1, so
the query returns an empty grid with a warning. -/
theorem getGrid_unavailable_witness :
    (∃ w ∈ demoState.workers, w.grids (.DIAG 1) = none) ∧
    ((getGridS demoState (.DIAG 1)).grid.data = [] ∧
      (getGridS demoState (.DIAG 1)).grid.nx = 0 ∧
      (getGridS demoState (.DIAG 1)).grid.ny = 0 ∧
      (getGridS demoState (.DIAG 1)).warn = true ∧
      (getGridS demoState (.DIAG 1)).state = demoState) :=
  ⟨by decide, getGrid_unavailable demoState (.DIAG 1) (by decide) (by decide)⟩

/-- Witness for the amended C9 at the concrete demonstration state with a
mismatched 1x1 grid. -/
theorem setter_dim_validation_witness :
    demoState.nextStepTimestamp = 0 ∧ isSameGeolocalization badGrid demoState.dem = false ∧
    (setSnowMassChange demoState badGrid 0 = ⟨demoState, some .dimMismatch, none⟩ ∧
      (setMeteo demoState badGrid badGrid badGrid badGrid badGrid 0).err = none ∧
      (setMeteo demoState badGrid badGrid badGrid badGrid badGrid 0).state.psum = badGrid ∧
      (setRadiationComponents demoState [[9]] [] [] 0 0).err = none ∧
      (setRadiationComponents demoState [[9]] [] [] 0 0).state.shortwave.data = [[9]] ∧
      (assimilate demoState badGrid 0).err = none ∧
      (assimilate demoState badGrid 0).state.mns = demoState.mns) :=
  ⟨rfl, by decide, setter_dim_validation demoState badGrid badGrid badGrid badGrid badGrid
    badGrid [[9]] [] [] 0 0 rfl (by decide)⟩
